import Mathlib

/-!
Verification development for the Page Analysis Engine of the
Playwright-BDD automation extension (`src/playwrightAnalyzer.ts`).

The TypeScript analyzer is shallowly embedded below.  DOM nodes are an
inductive tree `Dom`; the headless-browser driver primitives (`$$`,
`getAttribute`, `textContent`, `tagName`) are modelled as pure queries
over that tree, with `textContent()` recorded per node as the driver
would report it.  JavaScript string truthiness (`if (s)` treating
`null`/`undefined`/`""` as false) is modelled explicitly via `Option`
helpers.
-/

/-! ## JavaScript string helpers -/

/-- Whitespace test used by the model of JavaScript `String.trim`. -/
def isWsp (c : Char) : Bool :=
  c == ' ' || c == '\t' || c == '\n' || c == '\r' || c == '\x0c' || c == '\x0b'

/-- Model of JavaScript `s.trim()`. -/
def sTrim (s : String) : String :=
  String.mk (((s.toList.dropWhile isWsp).reverse.dropWhile isWsp).reverse)

/-- Model of JavaScript `s.toLowerCase()` (ASCII case folding). -/
def sLower (s : String) : String :=
  String.mk (s.toList.map Char.toLower)

/-- Model of JavaScript `s.substring(0, n)`. -/
def sTake (s : String) (n : Nat) : String :=
  String.mk (s.toList.take n)

/-- Character-list core of the model of `String.prototype.includes`. -/
def subOccurs (hay sub : List Char) : Bool :=
  if sub.isPrefixOf hay then true
  else
    match hay with
    | [] => false
    | _ :: t => subOccurs t sub

/-- Model of JavaScript `s.includes(sub)`. -/
def strIncludes (s sub : String) : Bool :=
  subOccurs s.toList sub.toList

/-- Character-list splitter for the model of `s.split(sep)` (single-char separator). -/
def splitCharAux (sep : Char) : List Char → List Char → List String
  | [], acc => [String.mk acc.reverse]
  | x :: t, acc =>
    if x == sep then String.mk acc.reverse :: splitCharAux sep t []
    else splitCharAux sep t (x :: acc)

/-- Model of JavaScript `s.split(sep)` for a one-character separator. -/
def jsSplit (s : String) (sep : Char) : List String :=
  splitCharAux sep s.toList []

/-- Model of `array.pop()` on the (always non-empty) result of `split`. -/
def jsPop (l : List String) : String :=
  (l.getLast?).getD ""

/-- Character-list core of the model of `s.replace(/'/g, "\\'")`. -/
def escSingleAux : List Char → List Char
  | [] => []
  | c :: t => if c == '\x27' then '\\' :: '\x27' :: escSingleAux t else c :: escSingleAux t

/-- Model of `s.replace(/'/g, "\\'")`: escape every single quote. -/
def escSingle (s : String) : String :=
  String.mk (escSingleAux s.toList)

/-- Character-list core of the model of `s.replace(/"/g, "\\\"")`. -/
def escDoubleAux : List Char → List Char
  | [] => []
  | c :: t => if c == '\"' then '\\' :: '\"' :: escDoubleAux t else c :: escDoubleAux t

/-- Model of `s.replace(/"/g, "\\\"")`: escape every double quote. -/
def escDouble (s : String) : String :=
  String.mk (escDoubleAux s.toList)

/-- JavaScript truthiness of a nullable string: `null`, `undefined` and `""` are falsy. -/
def truthy : Option String → Bool
  | some v => v != ""
  | none => false

/-- Model of JavaScript `x || d` on a nullable string `x`. -/
def jsOr (o : Option String) (d : String) : String :=
  match o with
  | some v => if v != "" then v else d
  | none => d

/-- Coerce a nullable string to a string, `""` for absent (used where the
source stores `x || ""`). -/
def jsStr (o : Option String) : String :=
  o.getD ""

/-! ## Data model -/

/-- `PageElement` — one discovered DOM node of interest
(`src/playwrightAnalyzer.ts`, interface `PageElement`). -/
structure PageElement where
  role : String
  name_or_label : String
  suggested_locator : String
  text_content : String
  tag_name : String
  attributes : List (String × String)
deriving DecidableEq, Repr

/-- A DOM element node: tag name (canonical lower case), attribute list
(presence with possibly empty value), the string the driver's
`textContent()` reports for the node (`none` = null), and child elements. -/
inductive Dom where
  | node (tag : String) (attrs : List (String × String)) (text : Option String)
      (children : List Dom)

/-- Tag name of a DOM node. -/
def Dom.tag : Dom → String
  | .node t _ _ _ => t

/-- Attribute list of a DOM node. -/
def Dom.attrList : Dom → List (String × String)
  | .node _ a _ _ => a

/-- The driver's `textContent()` result for a DOM node. -/
def Dom.text : Dom → Option String
  | .node _ _ x _ => x

/-- Child elements of a DOM node. -/
def Dom.children : Dom → List Dom
  | .node _ _ _ cs => cs

mutual

/-- All nodes of a DOM tree in document (preorder) order, the node itself first. -/
def allNodes : Dom → List Dom
  | .node t a x cs => .node t a x cs :: allNodesList cs

/-- All nodes of a forest in document order. -/
def allNodesList : List Dom → List Dom
  | [] => []
  | c :: cs => allNodes c ++ allNodesList cs

end

/-- Proper descendants of a node in document order (scope of `handle.$$`). -/
def descendants (n : Dom) : List Dom :=
  allNodesList n.children

/-- Model of the driver's `getAttribute`: `some` iff the attribute is present
(its value may be `""`). -/
def getAttr (n : Dom) (a : String) : Option String :=
  (n.attrList.find? (fun p => p.1 == a)).map (fun p => p.2)

/-! ## Interactive element extraction (`extractElementInfo` and helpers) -/

/-- The fixed attribute allow-list of `extractElementInfo`. -/
def attrNames : List String :=
  ["id", "class", "name", "type", "placeholder", "aria-label", "data-testid",
   "href", "role"]

/-- The attribute map built by `extractElementInfo`: for each allow-listed
name, the attribute is recorded only when `getAttribute` returns a truthy
(present, non-empty) value. -/
def buildAttributes (n : Dom) : List (String × String) :=
  attrNames.filterMap (fun a =>
    match getAttr n a with
    | some v => if v != "" then some (a, v) else none
    | none => none)

/-- Lookup in a built attribute map (JavaScript `attributes[k]`,
`some` iff the key is present). -/
def attrsGet (m : List (String × String)) (k : String) : Option String :=
  (m.find? (fun p => p.1 == k)).map (fun p => p.2)

/-- Lookup in an attribute map keeping only a truthy (non-empty) value:
the value of `attributes[k]` exactly when `if (attributes[k])` succeeds. -/
def truthyGet (m : List (String × String)) (k : String) : Option String :=
  match attrsGet m k with
  | some v => if v != "" then some v else none
  | none => none

/-- `inferRole` (`src/playwrightAnalyzer.ts:372`): explicit `role` attribute
wins when truthy; otherwise the tag/`type` table; unknown tags are `generic`. -/
def inferRole (tagName : String) (attributes : List (String × String)) : String :=
  if let some r := truthyGet attributes "role" then r
  else
    let tag := sLower tagName
    if tag == "button" then "button"
    else if tag == "a" then "link"
    else if tag == "input" then
      match attrsGet attributes "type" with
      | some "text" => "textbox"
      | some "email" => "textbox"
      | some "password" => "textbox"
      | some "search" => "textbox"
      | some "checkbox" => "checkbox"
      | some "radio" => "radio"
      | some "submit" => "button"
      | _ => "textbox"
    else if tag == "select" then "combobox"
    else if tag == "textarea" then "textbox"
    else "generic"

/-- `getElementName` (`src/playwrightAnalyzer.ts:413`): priority chain for the
human-readable name. -/
def getElementName (attributes : List (String × String))
    (textContent : Option String) : String :=
  if let some v := truthyGet attributes "aria-label" then v
  else if let some v := truthyGet attributes "data-testid" then v
  else if let some v := truthyGet attributes "placeholder" then v
  else
    match textContent with
    | some t =>
      if sTrim t != "" then sTrim t
      else
        if let some v := truthyGet attributes "name" then v
        else if let some v := truthyGet attributes "id" then v
        else if let some v := truthyGet attributes "href" then v
        else "unnamed element"
    | none =>
      if let some v := truthyGet attributes "name" then v
      else if let some v := truthyGet attributes "id" then v
      else if let some v := truthyGet attributes "href" then v
      else "unnamed element"

/-- `generateLocator` (`src/playwrightAnalyzer.ts:451`): locator synthesis for
interactive elements, fixed priority order. -/
def generateLocator (role name : String) (attributes : List (String × String))
    (tagName : String) : String :=
  if let some v := truthyGet attributes "data-testid" then
    "page.getByTestId(\x27" ++ v ++ "\x27)"
  else if let some v := truthyGet attributes "aria-label" then
    "page.getByLabel(\x27" ++ v ++ "\x27)"
  else if role == "button" && name != "" && name != "unnamed element" then
    "page.getByRole(\x27button\x27, \x7b name: \x27" ++ name ++ "\x27 \x7d)"
  else if role == "link" && name != "" && name != "unnamed element" then
    "page.getByRole(\x27link\x27, \x7b name: \x27" ++ name ++ "\x27 \x7d)"
  else if role == "textbox" && truthy (attrsGet attributes "placeholder") then
    "page.getByPlaceholder(\x27" ++ jsStr (truthyGet attributes "placeholder") ++ "\x27)"
  else if role == "textbox" && truthy (attrsGet attributes "aria-label") then
    "page.getByLabel(\x27" ++ jsStr (truthyGet attributes "aria-label") ++ "\x27)"
  else if truthy (attrsGet attributes "name") then
    "page.locator(\x27[name=\"" ++ jsStr (truthyGet attributes "name") ++ "\"]\x27)"
  else if truthy (attrsGet attributes "id") then
    "page.locator(\x27#" ++ jsStr (truthyGet attributes "id") ++ "\x27)"
  else
    "page.locator(\x27" ++ sLower tagName ++ "\x27)"

/-- `generateContentLocator` (`src/playwrightAnalyzer.ts:495`): locator
synthesis for content elements, fixed priority order. -/
def generateContentLocator (role text tagName : String)
    (id className : Option String) : String :=
  if truthy id then
    "page.locator(\x27#" ++ jsStr id ++ "\x27)"
  else if role == "heading" && text != "" then
    "page.getByRole(\x27heading\x27, \x7b name: \x27" ++ escSingle text ++ "\x27 \x7d)"
  else if text != "" && (role == "paragraph" || role == "text") then
    "page.getByText(\x27"
      ++ escSingle (if text.length > 20 then sTake text 20 else text) ++ "\x27)"
  else if role == "image" && text != "" then
    "page.getByAltText(\x27" ++ escSingle text ++ "\x27)"
  else if truthy className then
    "page.locator(\x27" ++ tagName ++ "."
      ++ (jsSplit (jsStr className) ' ').headD "" ++ "\x27)"
  else if text != "" && text.length < 50 then
    "page.locator(\x27" ++ tagName ++ ":has-text(\"" ++ escDouble text ++ "\")\x27)"
  else
    "page.locator(\x27" ++ tagName ++ "\x27)"

/-- `extractElementInfo` (`src/playwrightAnalyzer.ts:318`): build one
`PageElement` from a DOM node via the driver primitives. -/
def extractElementInfo (n : Dom) : PageElement :=
  let tagName := n.tag
  let attributes := buildAttributes n
  let textContent := n.text
  let role := inferRole tagName attributes
  let nameOrLabel := getElementName attributes textContent
  let suggestedLocator := generateLocator role nameOrLabel attributes tagName
  { role := role
    name_or_label := nameOrLabel
    suggested_locator := suggestedLocator
    text_content := jsOr (textContent.map sTrim) ""
    tag_name := sLower tagName
    attributes := attributes }

/-! ## The selector catalogue and `extractElements` -/

/-- The fixed ordered selector catalogue of `extractElements`
(`src/playwrightAnalyzer.ts:103`). -/
def interactiveSelectorList : List String :=
  ["input", "button", "select", "textarea", "a[href]",
   "[role=\"button\"]", "[role=\"textbox\"]", "[role=\"combobox\"]",
   "[role=\"checkbox\"]", "[role=\"radio\"]", "[data-testid]", "[aria-label]"]

/-- Attribute presence (CSS `[attr]` matches even an empty value). -/
def hasAttr (n : Dom) (a : String) : Bool :=
  (getAttr n a).isSome

/-- CSS matching for the selector forms appearing in the catalogue. -/
def matchesSelector (n : Dom) (sel : String) : Bool :=
  if sel == "a[href]" then n.tag == "a" && hasAttr n "href"
  else if sel == "[role=\"button\"]" then getAttr n "role" == some "button"
  else if sel == "[role=\"textbox\"]" then getAttr n "role" == some "textbox"
  else if sel == "[role=\"combobox\"]" then getAttr n "role" == some "combobox"
  else if sel == "[role=\"checkbox\"]" then getAttr n "role" == some "checkbox"
  else if sel == "[role=\"radio\"]" then getAttr n "role" == some "radio"
  else if sel == "[data-testid]" then hasAttr n "data-testid"
  else if sel == "[aria-label]" then hasAttr n "aria-label"
  else n.tag == sel

/-- Model of `page.$$(selector)`: all matching document nodes in document order. -/
def queryAll (root : Dom) (sel : String) : List Dom :=
  (allNodes root).filter (fun n => matchesSelector n sel)

/-- The candidate elements of `extractElements` before deduplication:
selector-catalogue order, then document order within each selector. -/
def interactiveCandidates (root : Dom) : List PageElement :=
  (interactiveSelectorList.map (fun sel => (queryAll root sel).map extractElementInfo)).flatten

/-- The deduplication filter of `extractElements`
(`src/playwrightAnalyzer.ts:135`): JavaScript
`elements.filter((element, index, self) => index === self.findIndex(e => e.suggested_locator === element.suggested_locator))`. -/
def dedupByLocator (l : List PageElement) : List PageElement :=
  (l.enum.filter (fun p =>
    l.findIdx? (fun e => e.suggested_locator == p.2.suggested_locator) == some p.1)).map
    (fun p => p.2)

/-- `extractElements` (`src/playwrightAnalyzer.ts:99`): candidates in catalogue
order, deduplicated by `suggested_locator`. -/
def extractElements (root : Dom) : List PageElement :=
  dedupByLocator (interactiveCandidates root)

/-! ## Content element extraction (`extractContentElements`) -/

/-- Model of `page.$$("t1, t2, ...")` for a comma list of tag selectors. -/
def queryAllTags (root : Dom) (tags : List String) : List Dom :=
  (allNodes root).filter (fun n => tags.contains n.tag)

/-- The headings pass of `extractContentElements`
(`src/playwrightAnalyzer.ts:148`). -/
def headingsPass (root : Dom) : List PageElement :=
  (queryAllTags root ["h1", "h2", "h3", "h4", "h5", "h6"]).filterMap (fun n =>
    let tagName := sLower n.tag
    let id := getAttr n "id"
    let className := getAttr n "class"
    match n.text.map sTrim with
    | some t =>
      if t != "" then
        some { role := "heading"
               name_or_label := t
               suggested_locator := generateContentLocator "heading" t tagName id className
               tag_name := tagName
               text_content := t
               attributes := [("id", jsStr id), ("class", jsStr className)] }
      else none
    | none => none)

/-- The paragraphs pass of `extractContentElements`
(`src/playwrightAnalyzer.ts:180`). -/
def paragraphsPass (root : Dom) : List PageElement :=
  (queryAllTags root ["p"]).filterMap (fun n =>
    let id := getAttr n "id"
    let className := getAttr n "class"
    match n.text.map sTrim with
    | some t =>
      if t != "" && t.length > 10 then
        let preview := if t.length > 50 then sTake t 50 ++ "..." else t
        some { role := "paragraph"
               name_or_label := preview
               suggested_locator := generateContentLocator "paragraph" t "p" id className
               tag_name := "p"
               text_content := t
               attributes := [("id", jsStr id), ("class", jsStr className)] }
      else none
    | none => none)

/-- The lists pass of `extractContentElements`
(`src/playwrightAnalyzer.ts:213`); note `list.$$("li")` collects `li`
descendants, not only children. -/
def listsPass (root : Dom) : List PageElement :=
  (queryAllTags root ["ul", "ol"]).filterMap (fun n =>
    let tagName := sLower n.tag
    let items := (descendants n).filter (fun c => c.tag == "li")
    let id := getAttr n "id"
    let className := getAttr n "class"
    if items.length > 0 then
      let firstItemText :=
        match items.head? with
        | some i => jsOr (i.text.map sTrim) ""
        | none => ""
      let listType := if tagName == "ul" then "unordered" else "ordered"
      some { role := "list"
             name_or_label := listType ++ " list with " ++ toString items.length ++ " items"
             suggested_locator := generateContentLocator "list" firstItemText tagName id className
             tag_name := tagName
             text_content := "List with " ++ toString items.length ++ " items. First item: "
               ++ firstItemText
             attributes := [("id", jsStr id), ("class", jsStr className), ("type", listType)] }
    else none)

/-- The tables pass of `extractContentElements`
(`src/playwrightAnalyzer.ts:250`). -/
def tablesPass (root : Dom) : List PageElement :=
  (queryAllTags root ["table"]).map (fun n =>
    let captionNode := (descendants n).find? (fun c => c.tag == "caption")
    let caption : Option String :=
      match captionNode with
      | some c => c.text
      | none => none
    let rows := (descendants n).filter (fun c => c.tag == "tr")
    let id := getAttr n "id"
    let className := getAttr n "class"
    { role := "table"
      name_or_label := jsOr caption ("Table with " ++ toString rows.length ++ " rows")
      suggested_locator := generateContentLocator "table" (jsOr caption "") "table" id className
      tag_name := "table"
      text_content := "Table with " ++ toString rows.length ++ " rows"
      attributes := [("id", jsStr id), ("class", jsStr className)] })

/-- The images pass of `extractContentElements`
(`src/playwrightAnalyzer.ts:281`). -/
def imagesPass (root : Dom) : List PageElement :=
  (queryAllTags root ["img"]).filterMap (fun n =>
    let alt := getAttr n "alt"
    let src := getAttr n "src"
    let id := getAttr n "id"
    let className := getAttr n "class"
    if truthy alt || truthy src then
      some { role := "image"
             name_or_label := jsOr alt ("Image: " ++ jsPop (jsSplit (jsStr src) '/'))
             suggested_locator := generateContentLocator "image" (jsOr alt "") "img" id className
             tag_name := "img"
             text_content := jsOr alt ""
             attributes := [("id", jsStr id), ("class", jsStr className),
                            ("src", jsStr src), ("alt", jsStr alt)] }
    else none)

/-- `extractContentElements` (`src/playwrightAnalyzer.ts:144`): the five
content passes run in order, results concatenated. -/
def extractContentElements (root : Dom) : List PageElement :=
  headingsPass root ++ paragraphsPass root ++ listsPass root
    ++ tablesPass root ++ imagesPass root

/-! ## Action inference (`inferActions`) -/

/-- The submit-triggering subset of `inferActions`
(`src/playwrightAnalyzer.ts:604`). -/
def submitButtonsOf (interactiveElements : List PageElement) : List PageElement :=
  interactiveElements.filter (fun el =>
    strIncludes (sLower el.name_or_label) "submit"
      || strIncludes (sLower el.name_or_label) "sign in"
      || strIncludes (sLower el.name_or_label) "login"
      || strIncludes (sLower el.name_or_label) "save")

/-- The button subset of `inferActions` (`src/playwrightAnalyzer.ts:621`):
button-role elements not locator-equal to any submit-triggering element. -/
def buttonsOf (interactiveElements : List PageElement) : List PageElement :=
  interactiveElements.filter (fun el =>
    el.role == "button"
      && !((submitButtonsOf interactiveElements).any (fun sb =>
            sb.suggested_locator == el.suggested_locator)))

/-- `inferActions` (`src/playwrightAnalyzer.ts:593`): the ordered label list,
one conditional append per trigger. -/
def inferActions (formFields interactiveElements contentElements : List PageElement) :
    List String :=
  (if formFields.length > 0 then ["fill form fields"] else [])
    ++ (if (submitButtonsOf interactiveElements).length > 0 then ["submit form"] else [])
    ++ (if (interactiveElements.filter (fun el => el.role == "link")).length > 0 then
          ["navigate via links"] else [])
    ++ (if (buttonsOf interactiveElements).length > 0 then ["interact with buttons"] else [])
    ++ (if (contentElements.filter (fun el => el.role == "heading")).length > 0 then
          ["verify page headings"] else [])
    ++ (if (contentElements.filter (fun el => el.role == "paragraph")).length > 0 then
          ["verify text content"] else [])
    ++ (if (contentElements.filter (fun el => el.role == "list")).length > 0 then
          ["verify list content"] else [])
    ++ (if (contentElements.filter (fun el => el.role == "table")).length > 0 then
          ["verify table data"] else [])
    ++ (if (contentElements.filter (fun el => el.role == "image")).length > 0 then
          ["verify images"] else [])

/-! ## The aggregator (`analyzePage`) and session lifecycle -/

/-- `PageAnalysis` (`src/playwrightAnalyzer.ts`, interface `PageAnalysis`). -/
structure PageAnalysis where
  url : String
  title : String
  high_level_actions : List String
  key_elements : List PageElement
  page_structure : String
  form_fields : List PageElement
  interactive_elements : List PageElement
  navigation_elements : List PageElement
  content_elements : List PageElement
deriving DecidableEq, Repr

/-- The `form_fields` filter of `analyzePage` (`src/playwrightAnalyzer.ts:52`). -/
def formFieldsOf (elements : List PageElement) : List PageElement :=
  elements.filter (fun el =>
    ["textbox", "input", "textarea", "combobox", "listbox"].contains el.role
      || ["input", "textarea", "select"].contains (sLower el.tag_name))

/-- The `interactive_elements` filter of `analyzePage`
(`src/playwrightAnalyzer.ts:60`). -/
def interactiveElementsOf (elements : List PageElement) : List PageElement :=
  elements.filter (fun el =>
    ["button", "link", "checkbox", "radio", "switch"].contains el.role
      || ["button", "a"].contains (sLower el.tag_name))

/-- The `navigation_elements` filter of `analyzePage`
(`src/playwrightAnalyzer.ts:66`). -/
def navigationElementsOf (elements : List PageElement) : List PageElement :=
  elements.filter (fun el =>
    el.role == "link"
      || (sLower el.tag_name == "a" && truthy (attrsGet el.attributes "href"))
      || el.role == "navigation")

/-- What the driver yields to one successful `analyzePage` body: the page
title, the document tree, and the `page.evaluate` structure summary text. -/
structure PageInput where
  title : String
  root : Dom
  structureText : String

/-- The successful-path aggregation of `analyzePage`
(`src/playwrightAnalyzer.ts:33`). -/
def buildAnalysis (url : String) (p : PageInput) : PageAnalysis :=
  let elements := extractElements p.root
  let contentElements := extractContentElements p.root
  let formFields := formFieldsOf elements
  let interactiveElements := interactiveElementsOf elements
  let navigationElements := navigationElementsOf elements
  { url := url
    title := p.title
    high_level_actions := inferActions formFields interactiveElements contentElements
    key_elements := elements
    page_structure := p.structureText
    form_fields := formFields
    interactive_elements := interactiveElements
    navigation_elements := navigationElements
    content_elements := contentElements }

/-- Resource state of one `PlaywrightPageAnalyzer` instance: whether the shared
browser handle is open, and how many page-scoped sessions are open. -/
structure AnalyzerState where
  browserOpen : Bool
  openPages : Nat
deriving DecidableEq, Repr

/-- Lifecycle model of `analyzePage` (`src/playwrightAnalyzer.ts:33`):
`initialize` lazily opens the browser, `newPage` opens a page session, the
body either succeeds or throws (`outcome` is what the driver does), and the
`finally` block closes the page session on both paths. -/
def analyzePage (s : AnalyzerState) (url : String)
    (outcome : Except String PageInput) :
    Except String PageAnalysis × AnalyzerState :=
  let s1 : AnalyzerState := { s with browserOpen := true }
  let s2 : AnalyzerState := { s1 with openPages := s1.openPages + 1 }
  match outcome with
  | .error e => (.error e, { s2 with openPages := s2.openPages - 1 })
  | .ok p => (.ok (buildAnalysis url p), { s2 with openPages := s2.openPages - 1 })

/-- Lifecycle model of `close` (`src/playwrightAnalyzer.ts:662`). -/
def closeAnalyzer (s : AnalyzerState) : AnalyzerState :=
  { s with browserOpen := false }

/-! ## Spec-side comparison functions -/

/-- Modelled from the spec (§4.2): the documented role table — explicit role
attribute wins, otherwise tag mapping with `input` refined by `type`,
uncovered tags map to `generic`. -/
def roleSpec (roleAttr : Option String) (tag : String) (typeAttr : Option String) : String :=
  match roleAttr with
  | some r => r
  | none =>
    if tag == "button" then "button"
    else if tag == "a" then "link"
    else if tag == "select" then "combobox"
    else if tag == "textarea" then "textbox"
    else if tag == "input" then
      match typeAttr with
      | some "text" => "textbox"
      | some "email" => "textbox"
      | some "password" => "textbox"
      | some "search" => "textbox"
      | some "checkbox" => "checkbox"
      | some "radio" => "radio"
      | some "submit" => "button"
      | _ => "textbox"
    else "generic"

/-- First non-empty entry of a priority chain of nullable strings, with a
fallback default. -/
def jsFirst : List (Option String) → String → String
  | [], d => d
  | o :: rest, d =>
    match o with
    | some v => if v != "" then v else jsFirst rest d
    | none => jsFirst rest d

/-- Modelled from the spec (§4.3): the name-resolution priority chain,
first non-empty match wins. -/
def nameSpec (attrs : List (String × String)) (textContent : Option String) : String :=
  jsFirst
    [attrsGet attrs "aria-label", attrsGet attrs "data-testid",
     attrsGet attrs "placeholder", textContent.map sTrim,
     attrsGet attrs "name", attrsGet attrs "id", attrsGet attrs "href"]
    "unnamed element"

/-! ## Claim theorems -/

/-- Claim C4: role classification is total and matches the documented table —
for every `(role attribute, tag, type)` input `inferRole` agrees with the
spec's table (`roleSpec`), with an explicit truthy role attribute winning
unconditionally; and the pipeline classifies each element via `inferRole` on
its built attribute map. -/
theorem claimC4_roleTotality :
    (∀ (tag : String) (attrs : List (String × String)),
        inferRole tag attrs
          = roleSpec (truthyGet attrs "role") (sLower tag) (attrsGet attrs "type"))
      ∧ (∀ n : Dom, (extractElementInfo n).role = inferRole n.tag (buildAttributes n)) := by
  constructor
  · intro tag attrs
    unfold inferRole roleSpec
    cases h : truthyGet attrs "role" with
    | some r => simp [h]
    | none =>
      simp only [h]
      by_cases hb : sLower tag = "button" <;>
        by_cases ha : sLower tag = "a" <;>
          by_cases hs : sLower tag = "select" <;>
            by_cases ht : sLower tag = "textarea" <;>
              by_cases hi : sLower tag = "input" <;>
                simp_all
  · intro n
    rfl

/-- Unfolding step for `jsFirst` over a raw attribute lookup: the head entry
contributes exactly when it is truthy. -/
theorem jsFirst_truthy (attrs : List (String × String)) (k : String)
    (rest : List (Option String)) (d : String) :
    jsFirst (attrsGet attrs k :: rest) d
      = match truthyGet attrs k with
        | some v => v
        | none => jsFirst rest d := by
  unfold truthyGet
  cases h : attrsGet attrs k with
  | none => simp [jsFirst]
  | some v =>
    simp only [jsFirst]
    by_cases hv : v = "" <;> simp [hv]

/-- Unfolding step for `jsFirst` over an arbitrary nullable entry. -/
theorem jsFirst_opt (o : Option String) (rest : List (Option String)) (d : String) :
    jsFirst (o :: rest) d
      = match o with
        | some v => if v != "" then v else jsFirst rest d
        | none => jsFirst rest d := by
  cases o <;> simp [jsFirst]

/-- The name/id/href tail of the priority chain, shared by both branches of
`getElementName` after the text-content level. -/
theorem nameTailEq (attrs : List (String × String)) :
    (if let some v := truthyGet attrs "name" then v
     else if let some v := truthyGet attrs "id" then v
     else if let some v := truthyGet attrs "href" then v
     else "unnamed element")
      = jsFirst [attrsGet attrs "name", attrsGet attrs "id", attrsGet attrs "href"]
          "unnamed element" := by
  rw [jsFirst_truthy]
  cases h5 : truthyGet attrs "name" with
  | some v => simp [h5]
  | none =>
    simp only [h5]
    rw [jsFirst_truthy]
    cases h6 : truthyGet attrs "id" with
    | some v => simp [h6]
    | none =>
      simp only [h6]
      rw [jsFirst_truthy]
      cases h7 : truthyGet attrs "href" with
      | some v => simp [h7]
      | none => simp [h7, jsFirst]

/-- Claim C5: for every interactive element, `name_or_label` is the first
non-empty entry of the strict priority chain aria-label → data-testid →
placeholder → trimmed text content → name → id → href, with literal fallback
`"unnamed element"`; the pipeline names each element via `getElementName`. -/
theorem claimC5_namePriority :
    (∀ (attrs : List (String × String)) (textContent : Option String),
        getElementName attrs textContent = nameSpec attrs textContent)
      ∧ (∀ n : Dom,
          (extractElementInfo n).name_or_label
            = getElementName (buildAttributes n) n.text) := by
  constructor
  · intro attrs textContent
    unfold getElementName nameSpec
    rw [jsFirst_truthy]
    cases h1 : truthyGet attrs "aria-label" with
    | some v => simp [h1]
    | none =>
      simp only [h1]
      rw [jsFirst_truthy]
      cases h2 : truthyGet attrs "data-testid" with
      | some v => simp [h2]
      | none =>
        simp only [h2]
        rw [jsFirst_truthy]
        cases h3 : truthyGet attrs "placeholder" with
        | some v => simp [h3]
        | none =>
          simp only [h3]
          rw [jsFirst_opt]
          cases textContent with
          | none => simp only [Option.map_none']; exact nameTailEq attrs
          | some t =>
            simp only [Option.map_some']
            by_cases ht : sTrim t = ""
            · simp only [ht, bne_self_eq_false, Bool.false_eq_true, if_false]
              exact nameTailEq attrs
            · simp [ht]
  · intro n
    rfl

/-- Truthiness of a raw attribute lookup coincides with definedness of the
truthy lookup. -/
theorem truthy_attrsGet (m : List (String × String)) (k : String) :
    truthy (attrsGet m k) = (truthyGet m k).isSome := by
  unfold truthy truthyGet
  cases h : attrsGet m k with
  | none => simp
  | some v => by_cases hv : v = "" <;> simp [hv]

/-- An input element with both `data-testid="email"` and
`aria-label="Email address"` (claim C6's decisive example). -/
def emailInputNode : Dom :=
  .node "input" [("data-testid", "email"), ("aria-label", "Email address")] none []

/-- Claim C6: `generateLocator` follows exactly the stated priority order:
data-testid, then aria-label, then role button/link with a non-sentinel
name, then textbox+placeholder, then the `name` attribute, then `id`, then
the bare tag selector; in particular the element with both
`data-testid="email"` and `aria-label="Email address"` gets the
testid-based locator.  (The textbox+aria-label level exists in the chain but
can only fire when the aria-label level above it already has.) -/
theorem claimC6_locatorPriority :
    (∀ (role name : String) (attrs : List (String × String)) (tag v : String),
        truthyGet attrs "data-testid" = some v →
        generateLocator role name attrs tag = "page.getByTestId(\x27" ++ v ++ "\x27)")
    ∧ (∀ (role name : String) (attrs : List (String × String)) (tag v : String),
        truthyGet attrs "data-testid" = none →
        truthyGet attrs "aria-label" = some v →
        generateLocator role name attrs tag = "page.getByLabel(\x27" ++ v ++ "\x27)")
    ∧ (∀ (role name : String) (attrs : List (String × String)) (tag : String),
        truthyGet attrs "data-testid" = none →
        truthyGet attrs "aria-label" = none →
        (role = "button" ∨ role = "link") → name ≠ "" → name ≠ "unnamed element" →
        generateLocator role name attrs tag
          = "page.getByRole(\x27" ++ role ++ "\x27, \x7b name: \x27" ++ name ++ "\x27 \x7d)")
    ∧ (∀ (name : String) (attrs : List (String × String)) (tag v : String),
        truthyGet attrs "data-testid" = none →
        truthyGet attrs "aria-label" = none →
        truthyGet attrs "placeholder" = some v →
        generateLocator "textbox" name attrs tag
          = "page.getByPlaceholder(\x27" ++ v ++ "\x27)")
    ∧ (∀ (role name : String) (attrs : List (String × String)) (tag v : String),
        truthyGet attrs "data-testid" = none →
        truthyGet attrs "aria-label" = none →
        (role == "button" && name != "" && name != "unnamed element") = false →
        (role == "link" && name != "" && name != "unnamed element") = false →
        (role == "textbox" && truthy (attrsGet attrs "placeholder")) = false →
        truthyGet attrs "name" = some v →
        generateLocator role name attrs tag
          = "page.locator(\x27[name=\"" ++ v ++ "\"]\x27)")
    ∧ (∀ (role name : String) (attrs : List (String × String)) (tag v : String),
        truthyGet attrs "data-testid" = none →
        truthyGet attrs "aria-label" = none →
        (role == "button" && name != "" && name != "unnamed element") = false →
        (role == "link" && name != "" && name != "unnamed element") = false →
        (role == "textbox" && truthy (attrsGet attrs "placeholder")) = false →
        truthyGet attrs "name" = none →
        truthyGet attrs "id" = some v →
        generateLocator role name attrs tag = "page.locator(\x27#" ++ v ++ "\x27)")
    ∧ (∀ (role name : String) (attrs : List (String × String)) (tag : String),
        truthyGet attrs "data-testid" = none →
        truthyGet attrs "aria-label" = none →
        (role == "button" && name != "" && name != "unnamed element") = false →
        (role == "link" && name != "" && name != "unnamed element") = false →
        (role == "textbox" && truthy (attrsGet attrs "placeholder")) = false →
        truthyGet attrs "name" = none →
        truthyGet attrs "id" = none →
        generateLocator role name attrs tag
          = "page.locator(\x27" ++ sLower tag ++ "\x27)")
    ∧ (extractElementInfo emailInputNode).suggested_locator
        = "page.getByTestId(\x27email\x27)" := by
  refine ⟨?_, ?_, ?_, ?_, ?_, ?_, ?_, ?_⟩
  · intro role name attrs tag v h1
    simp [generateLocator, h1]
  · intro role name attrs tag v h1 h2
    simp [generateLocator, h1, h2]
  · intro role name attrs tag h1 h2 hrole hn1 hn2
    rcases hrole with h | h <;> subst h <;>
      simp [generateLocator, h1, h2, hn1, hn2]
  · intro name attrs tag v h1 h2 h3
    simp [generateLocator, h1, h2, h3, truthy_attrsGet, jsStr]
  · intro role name attrs tag v h1 h2 hb hl hp h6
    simp only [generateLocator, h1, h2, hb, hl, hp, h6, jsStr]
    simp [truthy_attrsGet, h2, h6]
  · intro role name attrs tag v h1 h2 hb hl hp h6 h7
    simp only [generateLocator, h1, h2, hb, hl, hp, h6, h7, jsStr]
    simp [truthy_attrsGet, h2, h6, h7]
  · intro role name attrs tag h1 h2 hb hl hp h6 h7
    simp only [generateLocator, h1, h2, hb, hl, hp, h6, h7, jsStr]
    simp [truthy_attrsGet, h2, h6, h7]
  · rfl

/-- Witness for claim C6: the decisive concrete input — both a test id and an
aria label present — and the theorem's first level yields the testid-based
locator. -/
theorem claimC6_locatorPriority_witness :
    generateLocator "textbox" "Email address"
        [("data-testid", "email"), ("aria-label", "Email address")] "input"
      = "page.getByTestId(\x27email\x27)" :=
  claimC6_locatorPriority.1 "textbox" "Email address"
    [("data-testid", "email"), ("aria-label", "Email address")] "input" "email"
    (by decide)

/-- Claim C8: for every `analyzePage` call, on both exit paths (success and
thrown navigation/extraction failure) the page-scoped session count returns
to its pre-call value before control returns, the shared lazily-created
browser handle is open afterwards (so subsequent calls reuse it), and only
the explicit external `close` call closes it. -/
theorem claimC8_sessionRelease :
    ∀ (s : AnalyzerState) (url : String) (outcome : Except String PageInput),
      (analyzePage s url outcome).2.openPages = s.openPages
        ∧ (analyzePage s url outcome).2.browserOpen = true
        ∧ (closeAnalyzer (analyzePage s url outcome).2).browserOpen = false := by
  intro s url outcome
  cases outcome <;> simp [analyzePage, closeAnalyzer]

/-- The ordered trigger table of `inferActions`: the fixed label order paired
with each label's firing condition. -/
def actionTriggers (formFields interactiveElements contentElements : List PageElement) :
    List (String × Bool) :=
  [("fill form fields", decide (formFields.length > 0)),
   ("submit form", decide ((submitButtonsOf interactiveElements).length > 0)),
   ("navigate via links",
     decide ((interactiveElements.filter (fun el => el.role == "link")).length > 0)),
   ("interact with buttons", decide ((buttonsOf interactiveElements).length > 0)),
   ("verify page headings",
     decide ((contentElements.filter (fun el => el.role == "heading")).length > 0)),
   ("verify text content",
     decide ((contentElements.filter (fun el => el.role == "paragraph")).length > 0)),
   ("verify list content",
     decide ((contentElements.filter (fun el => el.role == "list")).length > 0)),
   ("verify table data",
     decide ((contentElements.filter (fun el => el.role == "table")).length > 0)),
   ("verify images",
     decide ((contentElements.filter (fun el => el.role == "image")).length > 0))]

/-- One step of filtering the trigger table: a conditional singleton append. -/
theorem filterStep (b : Bool) (a : String) (rest : List (String × Bool)) :
    ((((a, b)) :: rest).filter (fun p => p.2)).map (fun p => p.1)
      = (if b then [a] else []) ++ ((rest.filter (fun p => p.2)).map (fun p => p.1)) := by
  cases b <;> simp [List.filter]

/-- A heading content element used in claim C7's concrete page. -/
def headingElemA : PageElement :=
  { role := "heading", name_or_label := "Welcome"
    suggested_locator := "page.getByRole(\x27heading\x27, \x7b name: \x27Welcome\x27 \x7d)"
    text_content := "Welcome", tag_name := "h1"
    attributes := [("id", ""), ("class", "")] }

/-- A second heading content element used in claim C7's concrete page. -/
def headingElemB : PageElement :=
  { role := "heading", name_or_label := "About"
    suggested_locator := "page.getByRole(\x27heading\x27, \x7b name: \x27About\x27 \x7d)"
    text_content := "About", tag_name := "h2"
    attributes := [("id", ""), ("class", "")] }

/-- A submit button element used in claim C7's exclusion check. -/
def submitButtonElem : PageElement :=
  { role := "button", name_or_label := "Submit"
    suggested_locator := "page.getByRole(\x27button\x27, \x7b name: \x27Submit\x27 \x7d)"
    text_content := "Submit", tag_name := "button", attributes := [] }

/-- Claim C7: `inferActions` returns exactly the labels whose trigger
condition holds, in the fixed evaluation order; a button-role element in the
submit-triggering set (matched by locator equality) does not additionally
trigger `"interact with buttons"`; and a page with zero form fields, zero
buttons/links and two headings yields exactly `["verify page headings"]`. -/
theorem claimC7_actionInference :
    (∀ (formFields interactiveElements contentElements : List PageElement),
        inferActions formFields interactiveElements contentElements
          = ((actionTriggers formFields interactiveElements contentElements).filter
              (fun p => p.2)).map (fun p => p.1))
      ∧ inferActions [] [submitButtonElem] [] = ["submit form"]
      ∧ inferActions [] [] [headingElemA, headingElemB] = ["verify page headings"] := by
  refine ⟨?_, by decide, by decide⟩
  intro ff ie ce
  unfold inferActions actionTriggers
  simp only [filterStep, List.filter_nil, List.map_nil, List.append_nil,
    decide_eq_true_eq, List.append_assoc]

/-- Claim C1, counterexample: in the interactive rule set a `data-testid`
containing a single quote is embedded verbatim in the single-quoted locator
argument — the output is not the escaped-embedding form the claim requires. -/
theorem claimC1_counterexample :
    generateLocator "textbox" "a\x27b" [("data-testid", "a\x27b")] "input"
        = "page.getByTestId(\x27a\x27b\x27)"
      ∧ "page.getByTestId(\x27a\x27b\x27)"
          ≠ "page.getByTestId(\x27" ++ escSingle "a\x27b" ++ "\x27)" := by
  exact ⟨rfl, by decide⟩

/-- Claim C1 as amended: escaping holds only in the content rule set — the
heading, paragraph and image branches escape single quotes in the embedded
text and the has-text branch escapes double quotes — while the interactive
rule set embeds attribute values verbatim with no escaping. -/
theorem claimC1_escaping :
    (∀ (text tag : String), text ≠ "" →
        generateContentLocator "heading" text tag none none
          = "page.getByRole(\x27heading\x27, \x7b name: \x27" ++ escSingle text
              ++ "\x27 \x7d)")
    ∧ (∀ (text tag : String), text ≠ "" →
        generateContentLocator "paragraph" text tag none none
          = "page.getByText(\x27"
              ++ escSingle (if text.length > 20 then sTake text 20 else text) ++ "\x27)")
    ∧ (∀ (text tag : String), text ≠ "" →
        generateContentLocator "image" text tag none none
          = "page.getByAltText(\x27" ++ escSingle text ++ "\x27)")
    ∧ (∀ (text tag : String), text ≠ "" → text.length < 50 →
        generateContentLocator "list" text tag none none
          = "page.locator(\x27" ++ tag ++ ":has-text(\"" ++ escDouble text ++ "\")\x27)")
    ∧ (∀ (role name tag v : String) (attrs : List (String × String)),
        truthyGet attrs "data-testid" = some v →
        generateLocator role name attrs tag
          = "page.getByTestId(\x27" ++ v ++ "\x27)") := by
  refine ⟨?_, ?_, ?_, ?_, ?_⟩
  · intro text tag h
    simp [generateContentLocator, truthy, h]
  · intro text tag h
    simp [generateContentLocator, truthy, h]
  · intro text tag h
    simp [generateContentLocator, truthy, h]
  · intro text tag h hlen
    simp [generateContentLocator, truthy, h, hlen]
  · intro role name tag v attrs h
    simp [generateLocator, h]

/-- Witness for claim C1's amended theorem: a heading text containing a
single quote is escaped in the content rule set's role-based locator. -/
theorem claimC1_escaping_witness :
    generateContentLocator "heading" "It\x27s me" "h1" none none
      = "page.getByRole(\x27heading\x27, \x7b name: \x27" ++ escSingle "It\x27s me"
          ++ "\x27 \x7d)" :=
  claimC1_escaping.1 "It\x27s me" "h1" (by decide)

/-- A page whose single element is `<h1 aria-label="" id="foo">Hello</h1>`:
the empty (but present) `aria-label` puts it in the interactive catalogue,
and its heading pass and interactive pass both synthesize
`page.locator(\x27#foo\x27)`. -/
def overlapPageC2 : Dom :=
  .node "h1" [("aria-label", ""), ("id", "foo")] (some "Hello") []

/-- Claim C2, counterexample: `key_elements` and `content_elements` are not
disjoint — on `overlapPageC2` an interactive element and a content element
share the same `suggested_locator`. -/
theorem claimC2_counterexample :
    ¬ (∀ e1 ∈ extractElements overlapPageC2,
        ∀ e2 ∈ extractContentElements overlapPageC2,
          e1.suggested_locator ≠ e2.suggested_locator) := by
  decide

/-- Claim C2 as amended: `content_elements` is produced by an independent
pass and is never merged into `key_elements` (the aggregator keeps the two
lists separate), but the two sets are not disjoint — an element matching
both catalogues can occur in both, even with an identical
`suggested_locator`. -/
theorem claimC2_separateNotDisjoint :
    (∀ (url : String) (p : PageInput),
        (buildAnalysis url p).key_elements = extractElements p.root
          ∧ (buildAnalysis url p).content_elements = extractContentElements p.root)
      ∧ ((extractElements overlapPageC2).any (fun e1 =>
            (extractContentElements overlapPageC2).any (fun e2 =>
              e1.suggested_locator == e2.suggested_locator))) = true := by
  exact ⟨fun url p => ⟨rfl, rfl⟩, by decide⟩

/-- A `ul` whose only `li` is nested inside a `div`: the list has one `li`
descendant but zero `li` children. -/
def nestedListNode : Dom :=
  .node "ul" [] (some "X") [.node "div" [] (some "X") [.node "li" [] (some "X") []]]

/-- Claim C9, counterexample: the lists pass queries `li` descendants
(`list.$$("li")`), not children — a `ul` with zero `li` children but one
nested `li` descendant still emits an element, and the item count N counts
descendants. -/
theorem claimC9_counterexample :
    (nestedListNode.children.filter (fun c => c.tag == "li")) = []
      ∧ (listsPass nestedListNode).map (fun e => e.name_or_label)
          = ["unordered list with 1 items"] := by
  exact ⟨rfl, by decide⟩

/-- Spec-side reconstruction of the element the lists pass emits for a
list node (item count over `li` descendants). -/
def listElemSpec (n : Dom) : PageElement :=
  let tagName := sLower n.tag
  let items := (descendants n).filter (fun c => c.tag == "li")
  let firstItemText :=
    match items.head? with
    | some i => jsOr (i.text.map sTrim) ""
    | none => ""
  let listType := if tagName == "ul" then "unordered" else "ordered"
  { role := "list"
    name_or_label := listType ++ " list with " ++ toString items.length ++ " items"
    suggested_locator :=
      generateContentLocator "list" firstItemText tagName (getAttr n "id") (getAttr n "class")
    tag_name := tagName
    text_content := "List with " ++ toString items.length ++ " items. First item: "
      ++ firstItemText
    attributes := [("id", jsStr (getAttr n "id")), ("class", jsStr (getAttr n "class")),
                   ("type", listType)] }

/-- An unordered list with three direct `li` children and no id or class. -/
def threeItemUl : Dom :=
  .node "ul" [] (some "Apple Banana Cherry")
    [.node "li" [] (some "Apple") [], .node "li" [] (some "Banana") [],
     .node "li" [] (some "Cherry") []]

/-- Claim C9 as amended: the lists pass emits an element for a `ul`/`ol`
exactly when it has at least one `li` descendant (not child); the
`name_or_label` is `"<ordered|unordered> list with N items"` with N the
`li`-descendant count; and the three-item example produces
`"unordered list with 3 items"` with a locator derived from the first item's
trimmed text. -/
theorem claimC9_listSummarization :
    (∀ root : Dom,
        listsPass root
          = ((queryAllTags root ["ul", "ol"]).filter (fun n =>
              ((descendants n).filter (fun c => c.tag == "li")).length > 0)).map
              listElemSpec)
      ∧ (∀ n : Dom,
          (listElemSpec n).name_or_label
            = (if sLower n.tag == "ul" then "unordered" else "ordered")
              ++ " list with "
              ++ toString ((descendants n).filter (fun c => c.tag == "li")).length
              ++ " items")
      ∧ (listsPass threeItemUl).map (fun e => (e.name_or_label, e.suggested_locator))
          = [("unordered list with 3 items",
              "page.locator(\x27ul:has-text(\"Apple\")\x27)")] := by
  refine ⟨?_, fun n => rfl, by decide⟩
  intro root
  unfold listsPass
  generalize queryAllTags root ["ul", "ol"] = l
  induction l with
  | nil => rfl
  | cons n t ih =>
    simp only [List.filterMap_cons, List.filter_cons]
    by_cases h : ((descendants n).filter (fun c => c.tag == "li")).length > 0
    · simp only [h, if_pos, decide_eq_true_eq, ih, List.map_cons]
      simp [listElemSpec, h]
    · simp only [decide_eq_true_eq, h, if_neg, ih]
      simp [h]

/-- Shape of a headings-pass element: role `heading`, attribute map exactly
id/class. -/
theorem headingsPass_shape (root : Dom) (e : PageElement)
    (h : e ∈ headingsPass root) :
    e.role = "heading" ∧ ∃ i c, e.attributes = [("id", i), ("class", c)] := by
  unfold headingsPass at h
  rw [List.mem_filterMap] at h
  obtain ⟨n, hn, hf⟩ := h
  cases hx : n.text.map sTrim with
  | none => rw [hx] at hf; simp at hf
  | some t =>
    rw [hx] at hf
    by_cases ht : t = ""
    · simp [ht] at hf
    · simp only [ht, bne_iff_ne, ne_eq, not_false_eq_true, if_true,
        Option.some_inj] at hf
      subst hf
      exact ⟨rfl, jsStr (getAttr n "id"), jsStr (getAttr n "class"), rfl⟩

/-- Shape of a paragraphs-pass element: role `paragraph`, attribute map
exactly id/class. -/
theorem paragraphsPass_shape (root : Dom) (e : PageElement)
    (h : e ∈ paragraphsPass root) :
    e.role = "paragraph" ∧ ∃ i c, e.attributes = [("id", i), ("class", c)] := by
  unfold paragraphsPass at h
  rw [List.mem_filterMap] at h
  obtain ⟨n, hn, hf⟩ := h
  cases hx : n.text.map sTrim with
  | none => rw [hx] at hf; simp at hf
  | some t =>
    rw [hx] at hf
    by_cases ht : (t != "" && t.length > 10) = true
    · simp only [ht, if_true, Option.some_inj] at hf
      subst hf
      exact ⟨rfl, jsStr (getAttr n "id"), jsStr (getAttr n "class"), rfl⟩
    · rw [Bool.not_eq_true] at ht
      simp [ht] at hf

/-- Shape of a lists-pass element: role `list`, attribute map exactly
id/class/type. -/
theorem listsPass_shape (root : Dom) (e : PageElement)
    (h : e ∈ listsPass root) :
    e.role = "list" ∧ ∃ i c ty, e.attributes = [("id", i), ("class", c), ("type", ty)] := by
  unfold listsPass at h
  rw [List.mem_filterMap] at h
  obtain ⟨n, hn, hf⟩ := h
  by_cases hl : ((descendants n).filter (fun c => c.tag == "li")).length > 0
  · simp only [hl, if_true, Option.some_inj] at hf
    subst hf
    exact ⟨rfl, _, _, _, rfl⟩
  · simp [hl] at hf

/-- Shape of a tables-pass element: role `table`, attribute map exactly
id/class. -/
theorem tablesPass_shape (root : Dom) (e : PageElement)
    (h : e ∈ tablesPass root) :
    e.role = "table" ∧ ∃ i c, e.attributes = [("id", i), ("class", c)] := by
  unfold tablesPass at h
  rw [List.mem_map] at h
  obtain ⟨n, hn, hf⟩ := h
  subst hf
  exact ⟨rfl, jsStr (getAttr n "id"), jsStr (getAttr n "class"), rfl⟩

/-- Shape of an images-pass element: role `image`, attribute map exactly
id/class/src/alt. -/
theorem imagesPass_shape (root : Dom) (e : PageElement)
    (h : e ∈ imagesPass root) :
    e.role = "image"
      ∧ ∃ i c s a, e.attributes = [("id", i), ("class", c), ("src", s), ("alt", a)] := by
  unfold imagesPass at h
  rw [List.mem_filterMap] at h
  obtain ⟨n, hn, hf⟩ := h
  by_cases hc : (truthy (getAttr n "alt") || truthy (getAttr n "src")) = true
  · simp only [hc, if_true, Option.some_inj] at hf
    subst hf
    exact ⟨rfl, _, _, _, _, rfl⟩
  · rw [Bool.not_eq_true] at hc
    simp [hc] at hf

/-- Claim C10: an interactive element's attribute map contains a key only
when the DOM attribute is present with a non-empty value, while every
content element's attribute map always contains the keys `id` and `class`
(with `""` standing in for an absent attribute), and image elements also
always contain `src` and `alt`. -/
theorem claimC10_attributesDiscipline :
    (∀ (n : Dom) (k v : String), (k, v) ∈ (extractElementInfo n).attributes →
        getAttr n k = some v ∧ v ≠ "")
      ∧ (∀ (root : Dom) (e : PageElement), e ∈ extractContentElements root →
          (attrsGet e.attributes "id").isSome = true
            ∧ (attrsGet e.attributes "class").isSome = true
            ∧ (e.role = "image" →
                (attrsGet e.attributes "src").isSome = true
                  ∧ (attrsGet e.attributes "alt").isSome = true)) := by
  constructor
  · intro n k v hmem
    have hmem' : (k, v) ∈ buildAttributes n := hmem
    unfold buildAttributes at hmem'
    rw [List.mem_filterMap] at hmem'
    obtain ⟨a, _, hf⟩ := hmem'
    cases h : getAttr n a with
    | none => rw [h] at hf; simp at hf
    | some w =>
      rw [h] at hf
      by_cases hw : w = ""
      · simp [hw] at hf
      · simp only [hw, bne_iff_ne, ne_eq, not_false_eq_true, if_true,
          Option.some_inj, Prod.mk.injEq] at hf
        obtain ⟨rfl, rfl⟩ := hf
        exact ⟨h, hw⟩
  · intro root e h
    unfold extractContentElements at h
    simp only [List.mem_append] at h
    rcases h with ((((h | h) | h) | h) | h)
    · obtain ⟨hrole, i, c, hattr⟩ := headingsPass_shape root e h
      refine ⟨by simp [attrsGet, hattr], by simp [attrsGet, hattr], fun him => ?_⟩
      rw [hrole] at him
      simp at him
    · obtain ⟨hrole, i, c, hattr⟩ := paragraphsPass_shape root e h
      refine ⟨by simp [attrsGet, hattr], by simp [attrsGet, hattr], fun him => ?_⟩
      rw [hrole] at him
      simp at him
    · obtain ⟨hrole, i, c, ty, hattr⟩ := listsPass_shape root e h
      refine ⟨by simp [attrsGet, hattr], by simp [attrsGet, hattr], fun him => ?_⟩
      rw [hrole] at him
      simp at him
    · obtain ⟨hrole, i, c, hattr⟩ := tablesPass_shape root e h
      refine ⟨by simp [attrsGet, hattr], by simp [attrsGet, hattr], fun him => ?_⟩
      rw [hrole] at him
      simp at him
    · obtain ⟨hrole, i, c, s, a, hattr⟩ := imagesPass_shape root e h
      exact ⟨by simp [attrsGet, hattr], by simp [attrsGet, hattr],
        fun _ => ⟨by simp [attrsGet, hattr], by simp [attrsGet, hattr]⟩⟩

/-- Witness for claim C10: a concrete input node whose `id` attribute entry
in the built map indeed comes from a non-empty DOM attribute. -/
theorem claimC10_attributesDiscipline_witness :
    getAttr (Dom.node "input" [("id", "user"), ("class", "")] none []) "id"
        = some "user"
      ∧ "user" ≠ "" :=
  claimC10_attributesDiscipline.1
    (Dom.node "input" [("id", "user"), ("class", "")] none []) "id" "user"
    (by decide)

/-! ## Deduplication: first occurrence wins (claim C3) -/

/-- Reference deduplicator: walk the list once, keeping an element exactly
when its locator has not been seen before. -/
def dedupAux : List PageElement → List String → List PageElement
  | [], _ => []
  | e :: rest, seen =>
    if e.suggested_locator ∈ seen then dedupAux rest seen
    else e :: dedupAux rest (e.suggested_locator :: seen)

/-- `dedupAux` only depends on the membership content of the seen set. -/
theorem dedupAux_congr (l : List PageElement) :
    ∀ (s1 s2 : List String), (∀ x : String, x ∈ s1 ↔ x ∈ s2) →
      dedupAux l s1 = dedupAux l s2 := by
  induction l with
  | nil => intro s1 s2 _; rfl
  | cons e rest ih =>
    intro s1 s2 h
    unfold dedupAux
    by_cases hm : e.suggested_locator ∈ s1
    · rw [if_pos hm, if_pos ((h _).mp hm)]
      exact ih s1 s2 h
    · rw [if_neg hm, if_neg (fun hx => hm ((h _).mpr hx))]
      have h2 : ∀ x : String,
          x ∈ e.suggested_locator :: s1 ↔ x ∈ e.suggested_locator :: s2 := by
        intro x
        simp [h x]
      rw [ih _ _ h2]

/-- The JavaScript `filter`/`findIndex` deduplication, generalized over an
already-processed prefix, equals the one-pass reference deduplicator. -/
theorem dedupJS_eq_aux :
    ∀ (l pre : List PageElement),
      ((List.enumFrom pre.length l).filter (fun p =>
          (pre ++ l).findIdx?
              (fun x => x.suggested_locator == p.2.suggested_locator)
            == some p.1)).map (fun p => p.2)
        = dedupAux l (pre.map (fun x => x.suggested_locator)) := by
  intro l
  induction l with
  | nil => intro pre; rfl
  | cons e rest ih =>
    intro pre
    rw [List.enumFrom_cons, List.filter_cons]
    have hsecond :
        List.findIdx? (fun x => x.suggested_locator == e.suggested_locator) (e :: rest)
          = some 0 := by
      rw [List.findIdx?_cons]
      simp
    have happ :
        (pre ++ e :: rest).findIdx?
            (fun x => x.suggested_locator == e.suggested_locator)
          = (pre.findIdx? (fun x => x.suggested_locator == e.suggested_locator)).or
              (some pre.length) := by
      rw [List.findIdx?_append, hsecond]
      simp
    have hre : pre ++ e :: rest = (pre ++ [e]) ++ rest := by simp
    have hlen : pre.length + 1 = (pre ++ [e]).length := by simp
    by_cases hmem : e.suggested_locator ∈ pre.map (fun x => x.suggested_locator)
    · have hex : ∃ x ∈ pre, (x.suggested_locator == e.suggested_locator) = true := by
        obtain ⟨x, hx, hxe⟩ := List.mem_map.mp hmem
        exact ⟨x, hx, by simp [hxe]⟩
      have hfind := List.findIdx?_eq_some_of_exists hex
      have hlt :
          List.findIdx (fun x => x.suggested_locator == e.suggested_locator) pre
            < pre.length :=
        (List.findIdx?_eq_some_iff_findIdx_eq.mp hfind).1
      have hcond :
          ((pre ++ e :: rest).findIdx?
              (fun x => x.suggested_locator == e.suggested_locator)
            == some pre.length) = false := by
        rw [happ, hfind]
        have hne :
            List.findIdx (fun x => x.suggested_locator == e.suggested_locator) pre
              ≠ pre.length := Nat.ne_of_lt hlt
        simp [Option.or, hne]
      simp only [hcond, Bool.false_eq_true, if_false]
      rw [hlen, hre, ih (pre ++ [e])]
      simp only [dedupAux]
      rw [if_pos hmem]
      apply dedupAux_congr
      intro x
      simp only [List.map_append, List.map_cons, List.map_nil, List.mem_append,
        List.mem_singleton]
      constructor
      · rintro (hx | rfl)
        · exact hx
        · exact hmem
      · intro hx
        exact Or.inl hx
    · have hnone :
          pre.findIdx? (fun x => x.suggested_locator == e.suggested_locator)
            = none := by
        rw [List.findIdx?_eq_none_iff]
        intro x hx
        have hne : x.suggested_locator ≠ e.suggested_locator := by
          intro hEq
          exact hmem (List.mem_map.mpr ⟨x, hx, hEq⟩)
        simp [hne]
      have hcond :
          ((pre ++ e :: rest).findIdx?
              (fun x => x.suggested_locator == e.suggested_locator)
            == some pre.length) = true := by
        rw [happ, hnone]
        simp [Option.or]
      simp only [hcond, if_true, List.map_cons]
      rw [hlen, hre, ih (pre ++ [e])]
      simp only [dedupAux]
      rw [if_neg hmem]
      congr 1
      apply dedupAux_congr
      intro x
      simp only [List.map_append, List.map_cons, List.map_nil, List.mem_append,
        List.mem_singleton, List.mem_cons]
      constructor
      · rintro (hx | hx | hx)
        · exact Or.inr hx
        · exact Or.inl hx
        · exact absurd hx (List.not_mem_nil x)
      · rintro (hx | hx)
        · exact Or.inr (Or.inl hx)
        · exact Or.inl hx

/-- The source's `filter`/`findIndex` deduplication equals the one-pass
reference deduplicator started with nothing seen. -/
theorem dedupByLocator_eq (l : List PageElement) :
    dedupByLocator l = dedupAux l [] := by
  have h := dedupJS_eq_aux l []
  simpa [dedupByLocator] using h

/-- Survivors of the reference deduplicator with a given locator: none if
that locator was already seen, else exactly the first input element with
that locator. -/
theorem dedupAux_filter :
    ∀ (l : List PageElement) (seen : List String) (loc : String),
      (dedupAux l seen).filter (fun e => e.suggested_locator == loc)
        = if loc ∈ seen then []
          else (l.find? (fun e => e.suggested_locator == loc)).toList := by
  intro l
  induction l with
  | nil =>
    intro seen loc
    by_cases h : loc ∈ seen <;> simp [dedupAux, h]
  | cons e rest ih =>
    intro seen loc
    simp only [dedupAux]
    by_cases hc : e.suggested_locator ∈ seen
    · rw [if_pos hc, ih]
      by_cases hl : loc ∈ seen
      · rw [if_pos hl, if_pos hl]
      · rw [if_neg hl, if_neg hl]
        have hne : e.suggested_locator ≠ loc := fun hEq => hl (hEq ▸ hc)
        have hfe : (e.suggested_locator == loc) = false := by simp [hne]
        rw [List.find?_cons]
        simp only [hfe]
    · rw [if_neg hc, List.filter_cons]
      by_cases he : e.suggested_locator = loc
      · subst he
        simp only [beq_self_eq_true, if_true]
        rw [ih]
        rw [if_pos (List.mem_cons_self _ _)]
        rw [if_neg hc, List.find?_cons]
        simp
      · have hfe : (e.suggested_locator == loc) = false := by simp [he]
        simp only [hfe, Bool.false_eq_true, if_false, ih]
        have hmem : (loc ∈ e.suggested_locator :: seen) ↔ loc ∈ seen := by
          constructor
          · intro h
            rcases List.mem_cons.mp h with hEq | h2
            · exact absurd hEq.symm he
            · exact h2
          · exact fun h2 => List.mem_cons_of_mem _ h2
        by_cases hl : loc ∈ seen
        · rw [if_pos (hmem.mpr hl), if_pos hl]
        · rw [if_neg (fun h => hl (hmem.mp h)), if_neg hl, List.find?_cons]
          simp only [hfe]

/-- Claim C3: `extractElements` is the catalogue-ordered candidate list
(selector-catalogue order, then document order within each selector)
deduplicated by `suggested_locator`; for every locator value, exactly the
earliest candidate carrying it survives — the surviving elements with a given
locator are precisely the first candidate with that locator. -/
theorem claimC3_dedupFirstWins :
    (∀ root : Dom, extractElements root = dedupByLocator (interactiveCandidates root))
      ∧ (∀ (root : Dom) (loc : String),
          (extractElements root).filter (fun e => e.suggested_locator == loc)
            = ((interactiveCandidates root).find?
                (fun e => e.suggested_locator == loc)).toList) := by
  constructor
  · intro root
    rfl
  · intro root loc
    show (dedupByLocator (interactiveCandidates root)).filter _ = _
    rw [dedupByLocator_eq, dedupAux_filter]
    simp
